import Mathlib

/-!
# Verification of the vLLM health-monitor engine

A shallow embedding of `src/automation/monitoring/health-monitor.py`
(class `VLLMHealthMonitor`) together with proofs about the claims of the
specification.

Modelling conventions:

* Wall-clock instants, latencies and percentage readings are rationals
  (`ℚ`); Python floats are modelled as exact rationals, which is faithful
  for every comparison the program performs.
* Each external acquisition (an HTTP request, an NVML device read, a psutil
  figure, a filesystem operation) is an explicit input: either the value the
  Python call would return, or the exception message it would raise
  (`Except String _` / a dedicated outcome type).  The embedded functions
  reproduce exactly the control flow of the Python code on those inputs,
  including which `try`/`except` block catches which failure.
* Alert messages in the source are formatted strings embedding the live
  reading (for example "GPU 0 temperature: 90°C").  They are modelled as a
  structured datatype `AlertMsg` carrying the same fields the format string
  embeds, so message equality in the model coincides with equality of the
  formatted text (two messages built from the same template are equal
  exactly when their embedded fields are, up to the one-decimal rounding of
  the format, which is irrelevant at every input used below).
* Side effects (log lines, Slack webhook posts, mail invocations, metrics
  appends) are reified as an `Effect` list returned by each function, in
  the order the Python code performs them.
-/

namespace HealthMonitor

/-- Message payload of an alert, one constructor per `send_alert` call site
in the source; each carries exactly the live readings the Python format
string embeds. -/
inductive AlertMsg where
  /-- "Health endpoint response time: {t:.2f}s" -/
  | apiRespTime (t : ℚ)
  /-- "Generation response time: {t:.2f}s" -/
  | genTime (t : ℚ)
  /-- "GPU {i} memory usage: {pct:.1f}%" -/
  | gpuMem (i : ℕ) (pct : ℚ)
  /-- "GPU {i} temperature: {t}°C" -/
  | gpuTemp (i : ℕ) (t : ℚ)
  /-- "CPU usage: {pct:.1f}%" -/
  | cpuU (pct : ℚ)
  /-- "Memory usage: {pct:.1f}%" -/
  | memU (pct : ℚ)
  /-- "Disk usage: {pct:.1f}%" -/
  | diskU (pct : ℚ)
deriving DecidableEq

/-- An alert candidate: the `(title, message)` pair passed to `send_alert`. -/
structure Alert where
  title : String
  msg : AlertMsg
deriving DecidableEq

/-- The configuration fields the monitoring functions read, with the types
their built-in defaults have (`load_config` defaults: all thresholds are
nonnegative numbers, channel flags are booleans, endpoints are strings). -/
structure Config where
  apiRespThreshold : ℚ
  genTimeThreshold : ℚ
  gpuMemThreshold : ℚ
  gpuTempThreshold : ℚ
  cpuThreshold : ℚ
  memThreshold : ℚ
  diskThreshold : ℚ
  enableSlack : Bool
  slackWebhook : String
  enableEmail : Bool
  emailRecipients : String
deriving DecidableEq

/-- The outcome of one `requests.get`/`requests.post` call: a response with
an HTTP status code and the elapsed wall-clock duration of the call, or a
raised exception (network error or timeout). -/
inductive ReqOutcome where
  | ok (status : ℕ) (elapsed : ℚ)
  | exn (e : String)
deriving DecidableEq

/-- `test_generation`: POST to `/v1/chat/completions` under its own
`try`; returns the elapsed time on HTTP 200, `None` on any other status or
on a raised exception. -/
def testGeneration (g : ReqOutcome) : Option ℚ :=
  match g with
  | .ok s t => if s = 200 then some t else none
  | .exn _ => none

/-- The populated payload of an API-probe snapshot (the dict built at
lines 137–152 of the source). -/
structure ApiReport where
  healthStatus : Bool
  healthTime : ℚ
  modelsStatus : Bool
  modelsTime : ℚ
  genStatus : Bool
  genTime : Option ℚ
  overallStatus : Bool
deriving DecidableEq

/-- Snapshot returned by `check_api_health`: either the populated report or
the degraded error dict `{'error': e, 'overall_status': False}`. -/
inductive ApiSnapshot where
  | report (r : ApiReport)
  | err (e : String)
deriving DecidableEq

/-- Whether an API snapshot carries the per-request sub-checks (the error
dict carries none). -/
def ApiSnapshot.hasPerRequestData : ApiSnapshot → Bool
  | .report _ => true
  | .err _ => false

/-- The `overall_status` field of either form of the API snapshot dict. -/
def ApiSnapshot.overall : ApiSnapshot → Bool
  | .report r => r.overallStatus
  | .err _ => false

/-- The threshold checks at the end of `check_api_health` (lines 154–159):
an alert when the health-endpoint latency strictly exceeds
`API_RESPONSE_THRESHOLD`, and one when the generation latency is truthy
(non-`None` and nonzero) and strictly exceeds `GENERATION_TIME_THRESHOLD`. -/
def apiAlerts (cfg : Config) (healthTime : ℚ) (gen : Option ℚ) : List Alert :=
  (if cfg.apiRespThreshold < healthTime then
      [⟨"API Response Time High", .apiRespTime healthTime⟩] else []) ++
  (match gen with
   | some t =>
       if t ≠ 0 ∧ cfg.genTimeThreshold < t then
         [⟨"Generation Time High", .genTime t⟩] else []
   | none => [])

/-- `check_api_health`: the `/health` request, then `/v1/models`, then the
generation test, all inside one `try`.  A raised exception on either of the
first two requests reaches the outer `except` and yields the error dict;
the generation test catches its own failures.  Inputs are the three request
outcomes in program order. -/
def checkApiHealth (cfg : Config) (h m g : ReqOutcome) :
    ApiSnapshot × List Alert :=
  match h with
  | .exn e => (.err e, [])
  | .ok hs ht =>
    match m with
    | .exn e => (.err e, [])
    | .ok ms mt =>
      let gen := testGeneration g
      (.report
        { healthStatus := hs == 200
          healthTime := ht
          modelsStatus := ms == 200
          modelsTime := mt
          genStatus := gen.isSome
          genTime := gen
          overallStatus := (hs == 200) && (ms == 200) && gen.isSome },
       apiAlerts cfg ht gen)

/-- One successful NVML device read: the figures fetched at lines 210–229.
`power` is `none` when `nvmlDeviceGetPowerUsage` raised (that read has its
own inner `try`). -/
structure GpuReading where
  name : String
  memUsed : ℚ
  memTotal : ℚ
  temp : ℚ
  utilGpu : ℚ
  utilMem : ℚ
  power : Option ℚ
deriving DecidableEq

/-- `(mem_info.used / mem_info.total) * 100`. -/
def gpuMemPct (r : GpuReading) : ℚ := r.memUsed / r.memTotal * 100

/-- The per-device dict appended to `gpu_data` (lines 231–245). -/
structure GpuDeviceReport where
  index : ℕ
  name : String
  memUsed : ℚ
  memTotal : ℚ
  memUsedPercent : ℚ
  temp : ℚ
  utilGpu : ℚ
  utilMem : ℚ
  power : Option ℚ
deriving DecidableEq

/-- Build the per-device report for device `i` from its reading. -/
def deviceReport (i : ℕ) (r : GpuReading) : GpuDeviceReport :=
  { index := i
    name := r.name
    memUsed := r.memUsed
    memTotal := r.memTotal
    memUsedPercent := gpuMemPct r
    temp := r.temp
    utilGpu := r.utilGpu
    utilMem := r.utilMem
    power := r.power }

/-- The per-device threshold checks (lines 249–254): memory percent then
temperature, each against its configured limit, strictly. -/
def deviceAlerts (cfg : Config) (i : ℕ) (r : GpuReading) : List Alert :=
  (if cfg.gpuMemThreshold < gpuMemPct r then
      [⟨"GPU Memory High", .gpuMem i (gpuMemPct r)⟩] else []) ++
  (if cfg.gpuTempThreshold < r.temp then
      [⟨"GPU Temperature High", .gpuTemp i r.temp⟩] else [])

/-- The outcome of reading one GPU device inside the loop: all figures, or
a raised NVML exception (which, in the source, escapes the loop). -/
inductive GpuReadOutcome where
  | ok (r : GpuReading)
  | exn (e : String)
deriving DecidableEq

/-- The device loop of `check_gpu_status`, started at index `i`.  Alerts
for a device are sent as soon as the device is processed, so alerts emitted
before a failing read survive even though the collected `gpu_data` is
discarded by the outer `except`. -/
def gpuLoop (cfg : Config) : ℕ → List GpuReadOutcome →
    Except String (List GpuDeviceReport) × List Alert
  | _, [] => (.ok [], [])
  | _, .exn e :: _ => (.error e, [])
  | i, .ok r :: rest =>
    let p := gpuLoop cfg (i + 1) rest
    (p.1.map (fun l => deviceReport i r :: l), deviceAlerts cfg i r ++ p.2)

/-- Snapshot returned by `check_gpu_status`:
`{'available': False, 'message': ...}` when NVML is absent or no device is
visible, the populated dict when the loop completes, or the degraded
`{'available': True, 'error': e}` dict when a device read raised. -/
inductive GpuSnapshot where
  | unavailable
  | report (gpuCount : ℕ) (gpus : List GpuDeviceReport)
  | err (e : String)
deriving DecidableEq

/-- The `available` field of each form of the GPU snapshot dict.  Note the
error dict carries `available: True`; only the unavailable dict carries
`available: False`. -/
def GpuSnapshot.availableFlag : GpuSnapshot → Bool
  | .unavailable => false
  | .report _ _ => true
  | .err _ => true

/-- The per-device reports a GPU snapshot exposes (the error and
unavailable dicts expose none). -/
def GpuSnapshot.devices : GpuSnapshot → List GpuDeviceReport
  | .report _ gs => gs
  | _ => []

/-- `setup_nvidia`: the device count is 0 when pynvml is not importable or
when `nvmlInit`/`nvmlDeviceGetCount` raised. -/
def gpuCountOf (nvidia : Bool) (init : Except String ℕ) : ℕ :=
  if nvidia then
    match init with
    | .ok n => n
    | .error _ => 0
  else 0

/-- `check_gpu_status`: guard `not NVIDIA_AVAILABLE or gpu_count == 0`
yields the unavailable snapshot with no alerts; otherwise the device loop
runs, its exception (if any) caught by the outer `except` into the error
snapshot.  `reads` lists the read outcome of each device index in order,
so `reads.length` plays the role of `self.gpu_count`. -/
def checkGpuStatus (cfg : Config) (nvidia : Bool)
    (reads : List GpuReadOutcome) : GpuSnapshot × List Alert :=
  if !nvidia || reads.isEmpty then (.unavailable, [])
  else
    match gpuLoop cfg 0 reads with
    | (.ok gs, as) => (.report reads.length gs, as)
    | (.error e, as) => (.err e, as)

/-- `psutil.virtual_memory()` figures that the source reads. -/
structure MemReading where
  total : ℚ
  used : ℚ
  available : ℚ
  percent : ℚ
deriving DecidableEq

/-- `psutil.disk_usage('/')` figures that the source reads. -/
structure DiskReading where
  total : ℚ
  used : ℚ
  free : ℚ
deriving DecidableEq

/-- `psutil.net_io_counters()` figures that the source reads. -/
structure NetReading where
  bytesSent : ℕ
  bytesRecv : ℕ
  packetsSent : ℕ
  packetsRecv : ℕ
deriving DecidableEq

/-- The populated resource-probe payload (the dict at lines 293–319). -/
structure SysReport where
  cpuPercent : ℚ
  cpuCount : ℕ
  loadAvg : Option (ℚ × ℚ × ℚ)
  mem : MemReading
  disk : DiskReading
  diskPercent : ℚ
  net : NetReading
  processCount : ℕ
deriving DecidableEq

/-- Snapshot returned by `check_system_resources`: the populated dict, or
the degraded `{'error': e}` dict when any unguarded acquisition raised. -/
inductive SysSnapshot where
  | report (r : SysReport)
  | err (e : String)
deriving DecidableEq

/-- The outcome of each psutil/os acquisition in `check_system_resources`,
in program order.  Only the load-average read has its own `except`. -/
structure SysEnv where
  cpuR : Except String ℚ
  cpuCountR : Except String ℕ
  memR : Except String MemReading
  diskR : Except String DiskReading
  netR : Except String NetReading
  pidsR : Except String ℕ
  loadR : Except String (ℚ × ℚ × ℚ)

/-- The acquisition phase of `check_system_resources`: the reads happen in
source order inside one `try`; the first raising read aborts the rest,
except `os.getloadavg()` whose failure degrades to `None`. -/
def acquireSys (env : SysEnv) : Except String SysReport := do
  let cpu ← env.cpuR
  let cc ← env.cpuCountR
  let mem ← env.memR
  let disk ← env.diskR
  let net ← env.netR
  let pc ← env.pidsR
  .ok
    { cpuPercent := cpu
      cpuCount := cc
      loadAvg := env.loadR.toOption
      mem := mem
      disk := disk
      diskPercent := disk.used / disk.total * 100
      net := net
      processCount := pc }

/-- The threshold checks at lines 321–329: CPU, then memory, then disk
percent, each strictly against its configured limit. -/
def sysAlerts (cfg : Config) (cpu memPct diskPct : ℚ) : List Alert :=
  (if cfg.cpuThreshold < cpu then
      [⟨"CPU Usage High", .cpuU cpu⟩] else []) ++
  (if cfg.memThreshold < memPct then
      [⟨"Memory Usage High", .memU memPct⟩] else []) ++
  (if cfg.diskThreshold < diskPct then
      [⟨"Disk Usage High", .diskU diskPct⟩] else [])

/-- `check_system_resources`: a raised read (other than load average)
reaches the outer `except` and yields the error dict with no alerts;
otherwise the populated report plus its threshold alerts. -/
def checkSystemResources (cfg : Config) (env : SysEnv) :
    SysSnapshot × List Alert :=
  match acquireSys env with
  | .error e => (.err e, [])
  | .ok r => (.report r, sysAlerts cfg r.cpuPercent r.mem.percent r.diskPercent)

/-- One process row from `psutil.process_iter` (the `proc.info` fields the
source reads). -/
structure ProcInfo where
  pid : ℕ
  name : String
  cmdline : List String
  cpuPercent : ℚ
  memPercent : ℚ
  status : String
deriving DecidableEq

/-- One iteration of the process scan: the row, or a process that vanished
or denied access mid-scan (caught by the inner `except` and skipped). -/
inductive ProcScanItem where
  | ok (p : ProcInfo)
  | gone
deriving DecidableEq

/-- The process-probe environment: the scan rows, or an exception raised
outside the inner handler. -/
inductive ProcEnv where
  | scan (items : List ProcScanItem)
  | exn (e : String)
deriving DecidableEq

/-- ASCII lowercasing of one character, as Python `str.lower` acts on the
ASCII text this program handles. -/
def lowerChar (c : Char) : Char :=
  if 'A' ≤ c ∧ c ≤ 'Z' then Char.ofNat (c.toNat + 32) else c

/-- Python `s.lower()` on ASCII text, mapped characterwise. -/
def pyLower (s : String) : String := ⟨s.data.map lowerChar⟩

/-- Python `'vllm' in s.lower()`: the lowercased text contains "vllm" as a
substring (via `splitOn`, which yields more than one piece exactly when
the separator occurs). -/
def hasVllm (s : String) : Bool := ((pyLower s).splitOn "vllm").length > 1

/-- The match test at line 344: the process name, or any command-line
argument, references vllm. -/
def matchedProc (p : ProcInfo) : Bool := hasVllm p.name || p.cmdline.any hasVllm

/-- The per-process dict appended for matched processes (lines 345–351). -/
structure VllmProcReport where
  pid : ℕ
  name : String
  cpuPercent : ℚ
  memPercent : ℚ
  status : String
deriving DecidableEq

/-- Snapshot returned by `check_vllm_processes`. -/
inductive ProcSnapshot where
  | report (processCount : ℕ) (procs : List VllmProcReport)
  | err (e : String)
deriving DecidableEq

/-- `check_vllm_processes`: filter the scan for vllm-referencing rows,
skipping vanished processes; an exception outside the inner handler yields
the error dict. -/
def checkVllmProcesses (env : ProcEnv) : ProcSnapshot :=
  match env with
  | .exn e => .err e
  | .scan items =>
    let ps := items.filterMap (fun it =>
      match it with
      | .gone => none
      | .ok p =>
        if matchedProc p then
          some ⟨p.pid, p.name, p.cpuPercent, p.memPercent, p.status⟩
        else none)
    .report ps.length ps

/-- The composite record built by `run_health_check` from the four
collector snapshots (the cycle timestamp is omitted: no claim mentions
it). -/
structure Composite where
  api : ApiSnapshot
  gpu : GpuSnapshot
  system : SysSnapshot
  procs : ProcSnapshot
deriving DecidableEq

/-- The observable side effects of a cycle, in the order the source
performs them. -/
inductive Effect where
  /-- `logger.warning("ALERT: ...")` on a dispatched alert. -/
  | logWarn (a : Alert)
  /-- `requests.post(SLACK_WEBHOOK, ...)`. -/
  | slackPost (webhook : String) (a : Alert)
  /-- `subprocess.run(['mail', ...])`. -/
  | emailSend (recipients : String) (a : Alert)
  /-- `logger.error(...)`. -/
  | logError (e : String)
  /-- One line appended to the day-scoped `metrics-YYYY-MM-DD.jsonl`. -/
  | appendMetrics (m : Composite)
deriving DecidableEq

/-- Notification-channel I/O: the Slack post and the mail invocation. -/
def isChannelEffect : Effect → Bool
  | .slackPost _ _ => true
  | .emailSend _ _ => true
  | _ => false

/-- A metrics append. -/
def isAppendEffect : Effect → Bool
  | .appendMetrics _ => true
  | _ => false

/-- `self.alert_counts`: the suppression map from the alert key (the
`f"{title}:{message}"` string, which for the fixed colon-free titles is
determined by the `(title, message)` pair) to the time it was last
actually dispatched.  Modelled as an association list with
last-write-wins lookup, observationally a Python dict. -/
abbrev SuppressState := List (Alert × ℚ)

/-- Dict membership/lookup for the suppression map. -/
def lookupKey (st : SuppressState) (a : Alert) : Option ℚ :=
  (st.find? (fun p => decide (p.1 = a))).map (fun p => p.2)

/-- `send_alert` (lines 365–406): if the key was dispatched less than
3600 seconds ago, return immediately with no effect at all; otherwise
record `now` for the key, log a warning, then post to Slack when that
channel is enabled and configured, then invoke mail when that channel is
enabled and configured.  (Channel delivery failures are caught inside
`send_alert` and only add an error log; they are not modelled as inputs
because no claim depends on them.)  Returns the updated suppression map
and the effects performed. -/
def sendAlert (cfg : Config) (st : SuppressState) (now : ℚ) (a : Alert) :
    SuppressState × List Effect :=
  let suppressed :=
    match lookupKey st a with
    | some last => decide (now - last < 3600)
    | none => false
  if suppressed then (st, [])
  else
    ((a, now) :: st,
      [Effect.logWarn a] ++
      (if cfg.enableSlack ∧ cfg.slackWebhook ≠ "" then
          [.slackPost cfg.slackWebhook a] else []) ++
      (if cfg.enableEmail ∧ cfg.emailRecipients ≠ "" then
          [.emailSend cfg.emailRecipients a] else []))

/-- Feed a list of alert candidates through `send_alert` in order,
threading the suppression map; this is exactly how the checks invoke
`send_alert` as they encounter breaches within one cycle. -/
def dispatchAll (cfg : Config) (now : ℚ) :
    SuppressState → List Alert → SuppressState × List Effect
  | st, [] => (st, [])
  | st, a :: rest =>
    let p := sendAlert cfg st now a
    let q := dispatchAll cfg now p.1 rest
    (q.1, p.2 ++ q.2)

/-- `save_metrics` (lines 408–421): `metrics_dir.mkdir(...)` runs before
the `try`, so a directory-creation failure propagates to the caller; only
the open/append is guarded, its failure degrading to an error log.
`mkdirErr`/`writeErr` are the exceptions those two filesystem operations
would raise (`none` = success). -/
def saveMetrics (mkdirErr writeErr : Option String) (c : Composite) :
    Except String (List Effect) :=
  match mkdirErr with
  | some e => .error e
  | none =>
    match writeErr with
    | some e => .ok [Effect.logError ("Failed to save metrics: " ++ e)]
    | none => .ok [Effect.appendMetrics c]

/-- Everything outside the process that one health-check cycle consumes. -/
structure CycleEnv where
  healthReq : ReqOutcome
  modelsReq : ReqOutcome
  genReq : ReqOutcome
  nvidia : Bool
  gpuReads : List GpuReadOutcome
  sys : SysEnv
  procs : ProcEnv
  mkdirErr : Option String
  writeErr : Option String

/-- The composite record a cycle builds from its four snapshots. -/
def compositeOf (cfg : Config) (env : CycleEnv) : Composite :=
  { api := (checkApiHealth cfg env.healthReq env.modelsReq env.genReq).1
    gpu := (checkGpuStatus cfg env.nvidia env.gpuReads).1
    system := (checkSystemResources cfg env.sys).1
    procs := checkVllmProcesses env.procs }

/-- All alert candidates one cycle produces, in dispatch order (API
check, then GPU check, then system check; the process check sends none). -/
def cycleAlerts (cfg : Config) (env : CycleEnv) : List Alert :=
  (checkApiHealth cfg env.healthReq env.modelsReq env.genReq).2 ++
  (checkGpuStatus cfg env.nvidia env.gpuReads).2 ++
  (checkSystemResources cfg env.sys).2

/-- `run_health_check` (lines 423–446): run the four checks (each sending
its alerts as it goes), build the composite record, then `save_metrics`.
A propagated `save_metrics` exception aborts the cycle (`.error`);
otherwise the cycle returns the record, the updated suppression map and
the effects in order.  `now` stands for the wall-clock instant of the
cycle (the sub-second differences between individual `time.time()` calls
within one cycle are irrelevant to every claim). -/
def runHealthCheck (cfg : Config) (env : CycleEnv) (st : SuppressState)
    (now : ℚ) : Except String (Composite × SuppressState × List Effect) :=
  let d := dispatchAll cfg now st (cycleAlerts cfg env)
  let comp := compositeOf cfg env
  match saveMetrics env.mkdirErr env.writeErr comp with
  | .error e => .error e
  | .ok saveEffs => .ok (comp, d.1, d.2 ++ saveEffs)

/-- The records a cycle actually appended to the metrics log. -/
def appendedRecords
    (r : Except String (Composite × SuppressState × List Effect)) :
    List Composite :=
  match r with
  | .error _ => []
  | .ok x => x.2.2.filterMap (fun e =>
      match e with
      | .appendMetrics c => some c
      | _ => none)

/-! ## Helper material shared by the claim proofs -/

/-- The built-in default configuration values of `load_config`, restricted
to the fields the monitoring functions read. -/
def cfgDefault : Config :=
  { apiRespThreshold := 5
    genTimeThreshold := 30
    gpuMemThreshold := 95
    gpuTempThreshold := 85
    cpuThreshold := 90
    memThreshold := 90
    diskThreshold := 85
    enableSlack := false
    slackWebhook := ""
    enableEmail := false
    emailRecipients := "" }

/-- The device reports of a run of successful reads starting at index `i`. -/
def reportsOfOks (i : ℕ) : List GpuReading → List GpuDeviceReport
  | [] => []
  | r :: rest => deviceReport i r :: reportsOfOks (i + 1) rest

/-- The alerts of a run of successful reads starting at index `i`. -/
def alertsOfOks (cfg : Config) (i : ℕ) : List GpuReading → List Alert
  | [] => []
  | r :: rest => deviceAlerts cfg i r ++ alertsOfOks cfg (i + 1) rest

theorem gpuLoop_all_ok (cfg : Config) :
    ∀ (oks : List GpuReading) (i : ℕ),
      gpuLoop cfg i (oks.map .ok) =
        (.ok (reportsOfOks i oks), alertsOfOks cfg i oks) := by
  intro oks
  induction oks with
  | nil => intro i; rfl
  | cons r rest ih =>
    intro i
    simp [gpuLoop, ih (i + 1), reportsOfOks, alertsOfOks, Except.map]

theorem gpuLoop_read_failure (cfg : Config) :
    ∀ (oks : List GpuReading) (i : ℕ) (e : String)
      (rest : List GpuReadOutcome),
      gpuLoop cfg i (oks.map .ok ++ .exn e :: rest) =
        (.error e, alertsOfOks cfg i oks) := by
  intro oks
  induction oks with
  | nil => intro i e rest; rfl
  | cons r tl ih =>
    intro i e rest
    simp [gpuLoop, ih (i + 1), alertsOfOks, Except.map]

/-! ## Claim C8 -/

/-- C8: when GPU telemetry is unavailable (pynvml absent, or a device
count of zero — which `setup_nvidia` also produces when NVML
initialization failed), `check_gpu_status` returns the snapshot marked
`available: False` with zero GPU alert candidates; that outcome is a
distinct value from the failed snapshot, whose `available` flag is
`True`. -/
theorem c8_gpu_unavailable_marked_and_silent :
    (∀ (cfg : Config) (reads : List GpuReadOutcome),
        checkGpuStatus cfg false reads = (.unavailable, [])) ∧
    (∀ (cfg : Config) (nv : Bool), checkGpuStatus cfg nv [] = (.unavailable, [])) ∧
    GpuSnapshot.availableFlag .unavailable = false ∧
    (∀ e, GpuSnapshot.availableFlag (.err e) = true) ∧
    (∀ e, GpuSnapshot.unavailable ≠ GpuSnapshot.err e) ∧
    (∀ e, gpuCountOf true (.error e) = 0) ∧
    (∀ init, gpuCountOf false init = 0) := by
  refine ⟨fun cfg reads => ?_, fun cfg nv => ?_, rfl, fun e => rfl,
    fun e h => GpuSnapshot.noConfusion h, fun e => rfl, fun init => rfl⟩
  · simp [checkGpuStatus]
  · simp [checkGpuStatus]

/-! ## Claim C7 -/

/-- A concrete fully-failed composite record used in counterexamples. -/
def compFailed : Composite :=
  ⟨.err "api down", .unavailable, .err "psutil gone", .err "scan failed"⟩

/-- C7 counterexample: `metrics_dir.mkdir` runs before the `try` block of
`save_metrics`, so a directory-creation failure is raised to the caller
rather than logged — the claim that every failure path returns normally is
false. -/
theorem c7_mkdircrash_counterexample :
    saveMetrics (some "Permission denied") none compFailed =
      .error "Permission denied" := rfl

/-- C7 amended: a failure to append the record is logged and not raised,
and a fully successful save appends exactly the record; but a failure to
create the data directory propagates to the caller and aborts the cycle. -/
theorem c7_save_metrics_amended :
    (∀ (c : Composite) (e : String),
        saveMetrics none (some e) c =
          .ok [Effect.logError ("Failed to save metrics: " ++ e)]) ∧
    (∀ c : Composite, saveMetrics none none c = .ok [Effect.appendMetrics c]) ∧
    (∀ (c : Composite) (e : String) (w : Option String),
        saveMetrics (some e) w c = .error e) := by
  exact ⟨fun c e => rfl, fun c => rfl, fun c e w => rfl⟩

/-! ## Claim C6 -/

/-- A resource-probe environment in which only the virtual-memory read
fails. -/
def sysEnvMemFail : SysEnv :=
  { cpuR := .ok 10
    cpuCountR := .ok 8
    memR := .error "virtual_memory failed"
    diskR := .ok ⟨1000, 500, 500⟩
    netR := .ok ⟨0, 0, 0, 0⟩
    pidsR := .ok 120
    loadR := .ok (1, 1, 1) }

/-- C6 counterexample: with every figure but virtual memory acquired
successfully, the snapshot is the whole-snapshot error record — the CPU,
disk, network and process figures that were obtained are all absent, and
the snapshot as a whole is the failed form, refuting the claim that only
the failing field becomes absent. -/
theorem c6_memfail_counterexample :
    checkSystemResources cfgDefault sysEnvMemFail =
      (.err "virtual_memory failed", []) := rfl

/-- C6 amended: only a load-average failure degrades to an absent field
(`loadAvg = none`) with every other field still populated; a failure of
any other figure (CPU percent, core count, memory, disk, network, process
count) makes the whole snapshot the error record, with no alerts. -/
theorem c6_sys_probe_degradation_amended :
    (∀ (cfg : Config) (cpu : ℚ) (cc : ℕ) (mem : MemReading)
        (disk : DiskReading) (net : NetReading) (pc : ℕ) (e : String),
        checkSystemResources cfg
            ⟨.ok cpu, .ok cc, .ok mem, .ok disk, .ok net, .ok pc, .error e⟩ =
          (.report
            { cpuPercent := cpu, cpuCount := cc, loadAvg := none, mem := mem
              disk := disk, diskPercent := disk.used / disk.total * 100
              net := net, processCount := pc },
           sysAlerts cfg cpu mem.percent (disk.used / disk.total * 100))) ∧
    (∀ (cfg : Config) (e : String) r2 r3 r4 r5 r6 r7,
        checkSystemResources cfg ⟨.error e, r2, r3, r4, r5, r6, r7⟩ =
          (.err e, [])) ∧
    (∀ (cfg : Config) (cpu : ℚ) (e : String) r3 r4 r5 r6 r7,
        checkSystemResources cfg ⟨.ok cpu, .error e, r3, r4, r5, r6, r7⟩ =
          (.err e, [])) ∧
    (∀ (cfg : Config) (cpu : ℚ) (cc : ℕ) (e : String) r4 r5 r6 r7,
        checkSystemResources cfg ⟨.ok cpu, .ok cc, .error e, r4, r5, r6, r7⟩ =
          (.err e, [])) ∧
    (∀ (cfg : Config) (cpu : ℚ) (cc : ℕ) (mem : MemReading) (e : String)
        r5 r6 r7,
        checkSystemResources cfg
            ⟨.ok cpu, .ok cc, .ok mem, .error e, r5, r6, r7⟩ =
          (.err e, [])) ∧
    (∀ (cfg : Config) (cpu : ℚ) (cc : ℕ) (mem : MemReading)
        (disk : DiskReading) (e : String) r6 r7,
        checkSystemResources cfg
            ⟨.ok cpu, .ok cc, .ok mem, .ok disk, .error e, r6, r7⟩ =
          (.err e, [])) ∧
    (∀ (cfg : Config) (cpu : ℚ) (cc : ℕ) (mem : MemReading)
        (disk : DiskReading) (net : NetReading) (e : String) r7,
        checkSystemResources cfg
            ⟨.ok cpu, .ok cc, .ok mem, .ok disk, .ok net, .error e, r7⟩ =
          (.err e, [])) := by
  refine ⟨fun cfg cpu cc mem disk net pc e => rfl, fun cfg e r2 r3 r4 r5 r6 r7 => rfl,
    fun cfg cpu e r3 r4 r5 r6 r7 => rfl, fun cfg cpu cc e r4 r5 r6 r7 => rfl,
    fun cfg cpu cc mem e r5 r6 r7 => rfl, fun cfg cpu cc mem disk e r6 r7 => rfl,
    fun cfg cpu cc mem disk net e r7 => rfl⟩

/-! ## Claim C5 -/

/-- A concrete healthy GPU reading (memory 10%, temperature 50°C — below
every default threshold). -/
def gpuR0 : GpuReading := ⟨"NVIDIA H100", 100, 1000, 50, 10, 10, some 100⟩

/-- C5 counterexample: device 0 reads successfully, device 1 raises; the
snapshot degrades to the error record and reports no device at all — the
successful reading of device 0 is discarded, refuting the claim that a
read failure on one device does not prevent reporting the others. -/
theorem c5_one_device_failure_counterexample :
    checkGpuStatus cfgDefault true [.ok gpuR0, .exn "NVML read error"] =
        (.err "NVML read error", []) ∧
    (checkGpuStatus cfgDefault true
        [.ok gpuR0, .exn "NVML read error"]).1.devices = [] := by
  have halerts : alertsOfOks cfgDefault 0 [gpuR0] = [] := by
    norm_num [alertsOfOks, deviceAlerts, gpuMemPct, gpuR0, cfgDefault]
  have h : checkGpuStatus cfgDefault true [.ok gpuR0, .exn "NVML read error"] =
      (.err "NVML read error", []) := by
    have hl := gpuLoop_read_failure cfgDefault [gpuR0] 0 "NVML read error" []
    simp only [List.map, List.cons_append, List.nil_append] at hl
    simp [checkGpuStatus, hl, halerts]
  exact ⟨h, by rw [h]; rfl⟩

/-- C5 amended: when every device read succeeds the snapshot reports every
device (including devices whose optional power read yielded nothing); but
a raised read on any device aborts the enumeration — the snapshot becomes
the error record reporting no devices, discarding the successful readings,
while threshold alerts already sent for earlier devices stand. -/
theorem c5_gpu_device_failure_amended :
    (∀ (cfg : Config) (r : GpuReading) (oks : List GpuReading),
        checkGpuStatus cfg true ((r :: oks).map .ok) =
          (.report (oks.length + 1) (reportsOfOks 0 (r :: oks)),
           alertsOfOks cfg 0 (r :: oks))) ∧
    (∀ (cfg : Config) (oks : List GpuReading) (e : String)
        (rest : List GpuReadOutcome),
        checkGpuStatus cfg true (oks.map .ok ++ .exn e :: rest) =
          (.err e, alertsOfOks cfg 0 oks)) := by
  constructor
  · intro cfg r oks
    have h := gpuLoop_all_ok cfg (r :: oks) 0
    simp only [List.map] at h
    simp [checkGpuStatus, h]
  · intro cfg oks e rest
    have hne : (oks.map GpuReadOutcome.ok ++ .exn e :: rest) ≠ [] := by
      simp
    simp [checkGpuStatus, gpuLoop_read_failure cfg oks 0 e rest,
      List.isEmpty_iff, hne]

/-! ## Claim C9 -/

/-- C9 counterexample: a network error (or timeout) on the liveness
request reaches the outer `except` of `check_api_health`: the snapshot is
the error record, which carries no per-request success flag or duration
for any of the three requests — such failures are not mapped to a failed
sub-check, refuting the claim. -/
theorem c9_network_error_counterexample :
    checkApiHealth cfgDefault (.exn "connection timeout") (.ok 200 1)
        (.ok 200 1) = (.err "connection timeout", []) ∧
    (checkApiHealth cfgDefault (.exn "connection timeout") (.ok 200 1)
        (.ok 200 1)).1.hasPerRequestData = false := ⟨rfl, rfl⟩

/-- C9 amended: when the liveness and model-listing requests both return
responses (of any status), the snapshot carries a per-request success flag
and elapsed duration for all three requests, non-2xx statuses and any
generation failure (non-2xx or raised) are mapped to failed sub-checks,
and the overall flag is the conjunction of the three per-request flags;
but a network error or timeout raised by the liveness or model-listing
request degrades the whole snapshot to an error record with `overall`
false and no per-request data, and in every case the probe returns a
value rather than raising. -/
theorem c9_api_probe_amended :
    (∀ (cfg : Config) (hs : ℕ) (ht : ℚ) (ms : ℕ) (mt : ℚ) (g : ReqOutcome),
        checkApiHealth cfg (.ok hs ht) (.ok ms mt) g =
          (.report
            { healthStatus := hs == 200
              healthTime := ht
              modelsStatus := ms == 200
              modelsTime := mt
              genStatus := (testGeneration g).isSome
              genTime := testGeneration g
              overallStatus := (hs == 200) && (ms == 200) &&
                (testGeneration g).isSome },
           apiAlerts cfg ht (testGeneration g))) ∧
    (∀ (cfg : Config) (e : String) (m g : ReqOutcome),
        checkApiHealth cfg (.exn e) m g = (.err e, [])) ∧
    (∀ (cfg : Config) (hs : ℕ) (ht : ℚ) (e : String) (g : ReqOutcome),
        checkApiHealth cfg (.ok hs ht) (.exn e) g = (.err e, [])) ∧
    (∀ e, (ApiSnapshot.err e).overall = false) ∧
    (∀ (s : ℕ) (t : ℚ), testGeneration (.ok s t) =
        if s = 200 then some t else none) ∧
    (∀ e, testGeneration (.exn e) = none) := by
  exact ⟨fun cfg hs ht ms mt g => rfl, fun cfg e m g => rfl,
    fun cfg hs ht e g => rfl, fun e => rfl, fun s t => rfl, fun e => rfl⟩

/-! ## Claim C2 -/

/-- Looking an alert up in a freshly-recorded suppression map finds the
recorded dispatch time. -/
theorem lookupKey_cons_self (st : SuppressState) (a : Alert) (t : ℚ) :
    lookupKey ((a, t) :: st) a = some t := by
  simp [lookupKey]

/-- A key distinct from the newly recorded one is unaffected by the
record. -/
theorem lookupKey_cons_ne (st : SuppressState) (a b : Alert) (t : ℚ)
    (h : a ≠ b) : lookupKey ((a, t) :: st) b = lookupKey st b := by
  simp [lookupKey, List.find?, h]

/-- An unsuppressed `send_alert` call records the dispatch time and
performs the warning log plus the enabled channel I/O. -/
theorem sendAlert_fresh (cfg : Config) (st : SuppressState) (now : ℚ)
    (a : Alert) (h : lookupKey st a = none) :
    sendAlert cfg st now a =
      ((a, now) :: st,
        [Effect.logWarn a] ++
        (if cfg.enableSlack ∧ cfg.slackWebhook ≠ "" then
            [.slackPost cfg.slackWebhook a] else []) ++
        (if cfg.enableEmail ∧ cfg.emailRecipients ≠ "" then
            [.emailSend cfg.emailRecipients a] else [])) := by
  simp [sendAlert, h]

/-- C2: starting from a suppression map with no record for the candidate,
the first dispatch reaches the enabled notification channel; a second
identical candidate arriving less than 3600 seconds after the first
dispatch is dropped with zero I/O of any kind, while one arriving more
than 3600 seconds later reaches the channel as well. -/
theorem c2_suppression_window (cfg : Config) (st0 : SuppressState)
    (t1 t2 : ℚ) (a : Alert)
    (hfresh : lookupKey st0 a = none)
    (hslack : cfg.enableSlack = true) (hweb : cfg.slackWebhook ≠ "") :
    (t2 - t1 < 3600 →
      Effect.slackPost cfg.slackWebhook a ∈ (sendAlert cfg st0 t1 a).2 ∧
      (sendAlert cfg (sendAlert cfg st0 t1 a).1 t2 a).2 = []) ∧
    (3600 < t2 - t1 →
      Effect.slackPost cfg.slackWebhook a ∈ (sendAlert cfg st0 t1 a).2 ∧
      Effect.slackPost cfg.slackWebhook a ∈
        (sendAlert cfg (sendAlert cfg st0 t1 a).1 t2 a).2) := by
  have h1 := sendAlert_fresh cfg st0 t1 a hfresh
  have hmem : Effect.slackPost cfg.slackWebhook a ∈ (sendAlert cfg st0 t1 a).2 := by
    rw [h1]
    simp [hslack, hweb]
  have hst1 : (sendAlert cfg st0 t1 a).1 = (a, t1) :: st0 := by rw [h1]
  have hlook : lookupKey ((a, t1) :: st0) a = some t1 :=
    lookupKey_cons_self st0 a t1
  constructor
  · intro hlt
    refine ⟨hmem, ?_⟩
    rw [hst1]
    simp [sendAlert, hlook, hlt]
  · intro hgt
    refine ⟨hmem, ?_⟩
    rw [hst1]
    have hnot : ¬ (t2 - t1 < 3600) := not_lt.mpr (le_of_lt hgt)
    simp [sendAlert, hlook, hnot, hslack, hweb]

/-- A slack-enabled configuration used to witness the dispatcher claims. -/
def cfgSlackOn : Config :=
  { cfgDefault with enableSlack := true, slackWebhook := "https://hooks.example/T0/B0" }

/-- A concrete CPU alert candidate embedding the reading 95.0%. -/
def alertCpu95 : Alert := ⟨"CPU Usage High", .cpuU 95⟩

/-- C2 witness: a fresh CPU alert at t = 0 reaches the Slack channel, and
the identical candidate at t = 10 (within the hour) produces zero I/O. -/
theorem c2_suppression_window_witness :
    Effect.slackPost "https://hooks.example/T0/B0" alertCpu95 ∈
      (sendAlert cfgSlackOn [] 0 alertCpu95).2 ∧
    (sendAlert cfgSlackOn (sendAlert cfgSlackOn [] 0 alertCpu95).1 10
      alertCpu95).2 = [] := by
  have h := (c2_suppression_window cfgSlackOn [] 0 10 alertCpu95 rfl rfl
    (by simp [cfgSlackOn])).1 (by norm_num)
  exact h

/-! ## Claim C3 -/

/-- A concrete CPU alert candidate embedding the reading 96.0%. -/
def alertCpu96 : Alert := ⟨"CPU Usage High", .cpuU 96⟩

/-- C3 counterexample: two CPU-usage candidates of the same kind (same
title) whose messages embed different live readings (95.0% then 96.0%)
arrive 10 seconds apart, yet both reach the Slack channel: the suppression
key is the exact title-plus-message text, so differing readings defeat the
claimed kind-based deduplication. -/
theorem c3_reading_identity_counterexample :
    alertCpu95.title = alertCpu96.title ∧
    alertCpu95.msg ≠ alertCpu96.msg ∧
    Effect.slackPost "https://hooks.example/T0/B0" alertCpu95 ∈
      (sendAlert cfgSlackOn [] 0 alertCpu95).2 ∧
    Effect.slackPost "https://hooks.example/T0/B0" alertCpu96 ∈
      (sendAlert cfgSlackOn (sendAlert cfgSlackOn [] 0 alertCpu95).1 10
        alertCpu96).2 := by
  refine ⟨rfl, by decide, ?_, ?_⟩
  · rw [sendAlert_fresh cfgSlackOn [] 0 alertCpu95 rfl]
    simp [cfgSlackOn]
  · rw [sendAlert_fresh cfgSlackOn [] 0 alertCpu95 rfl]
    have hne : alertCpu95 ≠ alertCpu96 := by decide
    have hlook : lookupKey ((alertCpu95, 0) :: []) alertCpu96 = none := by
      rw [lookupKey_cons_ne [] alertCpu95 alertCpu96 0 hne]
      rfl
    rw [sendAlert_fresh cfgSlackOn _ 10 alertCpu96 hlook]
    simp [cfgSlackOn]

/-- C3 amended: the suppression identity of a candidate is its exact
`(title, message)` pair.  Two candidates of the same kind whose messages
embed different readings are not deduplicated: with neither recorded in
the suppression map, both dispatches reach the enabled channel regardless
of how close together they arrive; only a candidate repeating the exact
title and message within 3600 seconds is suppressed. -/
theorem c3_suppression_identity_amended (cfg : Config)
    (st : SuppressState) (t1 t2 : ℚ) (a1 a2 : Alert)
    (_htitle : a1.title = a2.title) (hmsg : a1.msg ≠ a2.msg)
    (h1 : lookupKey st a1 = none) (h2 : lookupKey st a2 = none)
    (hslack : cfg.enableSlack = true) (hweb : cfg.slackWebhook ≠ "") :
    Effect.slackPost cfg.slackWebhook a1 ∈ (sendAlert cfg st t1 a1).2 ∧
    Effect.slackPost cfg.slackWebhook a2 ∈
      (sendAlert cfg (sendAlert cfg st t1 a1).1 t2 a2).2 := by
  have hne : a1 ≠ a2 := fun h => hmsg (congrArg Alert.msg h)
  constructor
  · rw [sendAlert_fresh cfg st t1 a1 h1]
    simp [hslack, hweb]
  · rw [sendAlert_fresh cfg st t1 a1 h1]
    have hlook : lookupKey ((a1, t1) :: st) a2 = none := by
      rw [lookupKey_cons_ne st a1 a2 t1 hne]
      exact h2
    rw [sendAlert_fresh cfg _ t2 a2 hlook]
    simp [hslack, hweb]

/-- C3 amended witness: concrete GPU-temperature candidates with readings
88°C and 89°C, issued 5 seconds apart from an empty map, both reach the
Slack channel. -/
theorem c3_suppression_identity_amended_witness :
    Effect.slackPost "https://hooks.example/T0/B0"
        ⟨"GPU Temperature High", .gpuTemp 0 88⟩ ∈
      (sendAlert cfgSlackOn [] 0 ⟨"GPU Temperature High", .gpuTemp 0 88⟩).2 ∧
    Effect.slackPost "https://hooks.example/T0/B0"
        ⟨"GPU Temperature High", .gpuTemp 0 89⟩ ∈
      (sendAlert cfgSlackOn
        (sendAlert cfgSlackOn [] 0 ⟨"GPU Temperature High", .gpuTemp 0 88⟩).1 5
        ⟨"GPU Temperature High", .gpuTemp 0 89⟩).2 := by
  exact c3_suppression_identity_amended cfgSlackOn [] 0 5
    ⟨"GPU Temperature High", .gpuTemp 0 88⟩
    ⟨"GPU Temperature High", .gpuTemp 0 89⟩ rfl (by decide) rfl rfl rfl
    (by simp [cfgSlackOn])

/-! ## Claim C4 -/

/-- Extract the composite appended by a metrics-append effect. -/
def appendPayload : Effect → Option Composite
  | .appendMetrics c => some c
  | _ => none

/-- `send_alert` never appends to the metrics log. -/
theorem sendAlert_no_append (cfg : Config) (st : SuppressState) (now : ℚ)
    (a : Alert) : ((sendAlert cfg st now a).2).filterMap appendPayload = [] := by
  simp only [sendAlert]
  split
  · rfl
  · split_ifs <;> simp [appendPayload]

/-- Dispatching any list of candidates never appends to the metrics log. -/
theorem dispatchAll_no_append (cfg : Config) (now : ℚ) :
    ∀ (al : List Alert) (st : SuppressState),
      ((dispatchAll cfg now st al).2).filterMap appendPayload = [] := by
  intro al
  induction al with
  | nil => intro st; rfl
  | cons a rest ih =>
    intro st
    simp [dispatchAll, List.filterMap_append, sendAlert_no_append, ih]

/-- C4: whenever the filesystem operations of `save_metrics` succeed, a
health-check cycle appends to the metrics log exactly one record — the
composite built from the four collector snapshots — whatever the collector
outcomes, including cycles in which all four collectors failed. -/
theorem c4_composite_persisted_once (cfg : Config) (env : CycleEnv)
    (st : SuppressState) (now : ℚ)
    (hmk : env.mkdirErr = none) (hwr : env.writeErr = none) :
    appendedRecords (runHealthCheck cfg env st now) = [compositeOf cfg env] := by
  have hsave : saveMetrics env.mkdirErr env.writeErr (compositeOf cfg env) =
      .ok [Effect.appendMetrics (compositeOf cfg env)] := by
    rw [hmk, hwr]
    rfl
  have hrec : ∀ l : List Effect,
      l.filterMap (fun e => match e with
        | Effect.appendMetrics c => some c
        | _ => none) = l.filterMap appendPayload := by
    intro l
    rfl
  simp [runHealthCheck, hsave, appendedRecords, hrec, List.filterMap_append,
    dispatchAll_no_append, appendPayload]

/-- A cycle environment in which every collector fails (and the
filesystem works). -/
def envAllFail : CycleEnv :=
  { healthReq := .exn "api down"
    modelsReq := .exn "api down"
    genReq := .exn "api down"
    nvidia := false
    gpuReads := []
    sys := ⟨.error "psutil gone", .error "psutil gone", .error "psutil gone",
            .error "psutil gone", .error "psutil gone", .error "psutil gone",
            .error "psutil gone"⟩
    procs := .exn "scan failed"
    mkdirErr := none
    writeErr := none }

/-- C4 witness: a cycle in which all four collectors failed still appends
exactly one record, holding the four failed snapshots. -/
theorem c4_composite_persisted_once_witness :
    appendedRecords (runHealthCheck cfgDefault envAllFail [] 0) =
      [⟨.err "api down", .unavailable, .err "psutil gone", .err "scan failed"⟩] := by
  have h := c4_composite_persisted_once cfgDefault envAllFail [] 0 rfl rfl
  rw [h]
  rfl

/-! ## Claim C1 -/

/-- The alert candidate of the API-liveness-latency metric. -/
def isApiRespAlert (a : Alert) : Bool :=
  match a.msg with
  | .apiRespTime _ => true
  | _ => false

/-- The alert candidate of the generation-latency metric. -/
def isGenAlert (a : Alert) : Bool :=
  match a.msg with
  | .genTime _ => true
  | _ => false

/-- The alert candidate of the CPU-percent metric. -/
def isCpuAlert (a : Alert) : Bool :=
  match a.msg with
  | .cpuU _ => true
  | _ => false

/-- The alert candidate of the memory-percent metric. -/
def isMemAlert (a : Alert) : Bool :=
  match a.msg with
  | .memU _ => true
  | _ => false

/-- The alert candidate of the disk-percent metric. -/
def isDiskAlert (a : Alert) : Bool :=
  match a.msg with
  | .diskU _ => true
  | _ => false

/-- The alert candidate of device `j`'s GPU-memory-percent metric. -/
def isGpuMemFor (j : ℕ) (a : Alert) : Bool :=
  match a.msg with
  | .gpuMem k _ => decide (k = j)
  | _ => false

/-- The alert candidate of device `j`'s GPU-temperature metric. -/
def isGpuTempFor (j : ℕ) (a : Alert) : Bool :=
  match a.msg with
  | .gpuTemp k _ => decide (k = j)
  | _ => false

theorem countP_apiAlerts_resp (cfg : Config) (ht : ℚ) (gen : Option ℚ) :
    (apiAlerts cfg ht gen).countP isApiRespAlert =
      if cfg.apiRespThreshold < ht then 1 else 0 := by
  unfold apiAlerts
  cases gen <;> split_ifs <;>
    simp_all [isApiRespAlert, List.countP_append, List.countP_cons]

theorem countP_apiAlerts_gen (cfg : Config) (ht g : ℚ)
    (hg0 : 0 ≤ cfg.genTimeThreshold) :
    (apiAlerts cfg ht (some g)).countP isGenAlert =
      if cfg.genTimeThreshold < g then 1 else 0 := by
  have key : (g ≠ 0 ∧ cfg.genTimeThreshold < g) ↔ cfg.genTimeThreshold < g := by
    constructor
    · exact fun h => h.2
    · intro h
      exact ⟨ne_of_gt (lt_of_le_of_lt hg0 h), h⟩
  unfold apiAlerts
  simp only [key]
  split_ifs <;> simp [isGenAlert, isApiRespAlert, List.countP_append,
    List.countP_cons]

theorem countP_apiAlerts_zero (cfg : Config) (ht : ℚ) (gen : Option ℚ)
    (p : Alert → Bool)
    (h1 : ∀ t, p ⟨"API Response Time High", .apiRespTime t⟩ = false)
    (h2 : ∀ t, p ⟨"Generation Time High", .genTime t⟩ = false) :
    (apiAlerts cfg ht gen).countP p = 0 := by
  unfold apiAlerts
  cases gen <;> split_ifs <;>
    simp_all [List.countP_append, List.countP_cons, List.countP_eq_zero]

theorem countP_sysAlerts_zero (cfg : Config) (c m d : ℚ) (p : Alert → Bool)
    (h1 : ∀ t, p ⟨"CPU Usage High", .cpuU t⟩ = false)
    (h2 : ∀ t, p ⟨"Memory Usage High", .memU t⟩ = false)
    (h3 : ∀ t, p ⟨"Disk Usage High", .diskU t⟩ = false) :
    (sysAlerts cfg c m d).countP p = 0 := by
  unfold sysAlerts
  split_ifs <;> simp [h1, h2, h3, List.countP_append, List.countP_cons]

theorem countP_alertsOfOks_zero (cfg : Config) (p : Alert → Bool)
    (h1 : ∀ i t, p ⟨"GPU Memory High", .gpuMem i t⟩ = false)
    (h2 : ∀ i t, p ⟨"GPU Temperature High", .gpuTemp i t⟩ = false) :
    ∀ (l : List GpuReading) (i : ℕ), (alertsOfOks cfg i l).countP p = 0 := by
  intro l
  induction l with
  | nil => intro i; rfl
  | cons r rest ih =>
    intro i
    unfold alertsOfOks deviceAlerts
    split_ifs <;> simp [h1, h2, ih (i + 1), List.countP_append,
      List.countP_cons]

theorem countP_sysAlerts_cpu (cfg : Config) (c m d : ℚ) :
    (sysAlerts cfg c m d).countP isCpuAlert =
      if cfg.cpuThreshold < c then 1 else 0 := by
  unfold sysAlerts
  split_ifs <;> simp [isCpuAlert, List.countP_append, List.countP_cons]

theorem countP_sysAlerts_mem (cfg : Config) (c m d : ℚ) :
    (sysAlerts cfg c m d).countP isMemAlert =
      if cfg.memThreshold < m then 1 else 0 := by
  unfold sysAlerts
  split_ifs <;> simp [isMemAlert, List.countP_append, List.countP_cons]

theorem countP_sysAlerts_disk (cfg : Config) (c m d : ℚ) :
    (sysAlerts cfg c m d).countP isDiskAlert =
      if cfg.diskThreshold < d then 1 else 0 := by
  unfold sysAlerts
  split_ifs <;> simp [isDiskAlert, List.countP_append, List.countP_cons]

theorem countP_alertsOfOks_gpuMem_lt (cfg : Config) :
    ∀ (l : List GpuReading) (i k : ℕ), k < i →
      (alertsOfOks cfg i l).countP (isGpuMemFor k) = 0 := by
  intro l
  induction l with
  | nil => intro i k _; rfl
  | cons r rest ih =>
    intro i k hk
    have hne : i ≠ k := Nat.ne_of_gt hk
    unfold alertsOfOks deviceAlerts
    split_ifs <;> simp [isGpuMemFor, hne, List.countP_append,
      List.countP_cons, ih (i + 1) k (Nat.lt_succ_of_lt hk)]

theorem countP_alertsOfOks_gpuTemp_lt (cfg : Config) :
    ∀ (l : List GpuReading) (i k : ℕ), k < i →
      (alertsOfOks cfg i l).countP (isGpuTempFor k) = 0 := by
  intro l
  induction l with
  | nil => intro i k _; rfl
  | cons r rest ih =>
    intro i k hk
    have hne : i ≠ k := Nat.ne_of_gt hk
    unfold alertsOfOks deviceAlerts
    split_ifs <;> simp [isGpuTempFor, hne, List.countP_append,
      List.countP_cons, ih (i + 1) k (Nat.lt_succ_of_lt hk)]

theorem countP_alertsOfOks_gpuMem (cfg : Config) :
    ∀ (l : List GpuReading) (i j : ℕ) (rj : GpuReading), l[j]? = some rj →
      (alertsOfOks cfg i l).countP (isGpuMemFor (i + j)) =
        if cfg.gpuMemThreshold < gpuMemPct rj then 1 else 0 := by
  intro l
  induction l with
  | nil => intro i j rj hj; simp at hj
  | cons r rest ih =>
    intro i j rj hj
    cases j with
    | zero =>
      simp only [List.getElem?_cons_zero, Option.some_inj] at hj
      subst hj
      have hz := countP_alertsOfOks_gpuMem_lt cfg rest (i + 1) i
        (Nat.lt_succ_self i)
      unfold alertsOfOks deviceAlerts
      split_ifs <;> simp_all [isGpuMemFor, List.countP_append,
        List.countP_cons, Nat.add_zero]
    | succ n =>
      simp only [List.getElem?_cons_succ] at hj
      have harith : i + (n + 1) = (i + 1) + n := by omega
      have hne : i ≠ i + (n + 1) := by omega
      rw [harith]
      have hrest := ih (i + 1) n rj hj
      rw [← harith] at hrest ⊢
      unfold alertsOfOks deviceAlerts
      rw [harith]
      rw [harith] at hrest
      split_ifs <;> simp_all [isGpuMemFor, List.countP_append,
        List.countP_cons, show i ≠ i + 1 + n by omega]

theorem countP_alertsOfOks_gpuTemp (cfg : Config) :
    ∀ (l : List GpuReading) (i j : ℕ) (rj : GpuReading), l[j]? = some rj →
      (alertsOfOks cfg i l).countP (isGpuTempFor (i + j)) =
        if cfg.gpuTempThreshold < rj.temp then 1 else 0 := by
  intro l
  induction l with
  | nil => intro i j rj hj; simp at hj
  | cons r rest ih =>
    intro i j rj hj
    cases j with
    | zero =>
      simp only [List.getElem?_cons_zero, Option.some_inj] at hj
      subst hj
      have hz := countP_alertsOfOks_gpuTemp_lt cfg rest (i + 1) i
        (Nat.lt_succ_self i)
      unfold alertsOfOks deviceAlerts
      split_ifs <;> simp_all [isGpuTempFor, List.countP_append,
        List.countP_cons, Nat.add_zero]
    | succ n =>
      simp only [List.getElem?_cons_succ] at hj
      have hrest := ih (i + 1) n rj hj
      have harith : i + (n + 1) = (i + 1) + n := by omega
      rw [harith]
      unfold alertsOfOks deviceAlerts
      split_ifs <;> simp_all [isGpuTempFor, List.countP_append,
        List.countP_cons, show i ≠ i + 1 + n by omega]

/-- C1: for every metric checked against an "exceeds" threshold — GPU
memory percent and temperature per device, CPU, memory and disk percent,
API liveness latency and generation latency — a value present in the
cycle's snapshot that strictly exceeds its threshold yields exactly one
matching alert candidate in the cycle, and a value equal to or below the
threshold yields none.  The generation-latency threshold is assumed
nonnegative, as every threshold reachable through `load_config` is (see
`parseValue_numeric_nonneg`): the source guards that alert with the
truthiness of the reading, which below zero thresholds would additionally
require a nonzero reading. -/
theorem c1_exceeds_threshold_semantics
    (cfg : Config) (env : CycleEnv)
    (hs : ℕ) (ht : ℚ) (ms : ℕ) (mt : ℚ) (g : ℚ)
    (oks : List GpuReading) (j : ℕ) (rj : GpuReading) (sr : SysReport)
    (hH : env.healthReq = .ok hs ht)
    (hM : env.modelsReq = .ok ms mt)
    (hG : testGeneration env.genReq = some g)
    (hg0 : 0 ≤ cfg.genTimeThreshold)
    (hN : env.nvidia = true)
    (hR : env.gpuReads = oks.map .ok)
    (hj : oks[j]? = some rj)
    (hS : acquireSys env.sys = .ok sr) :
    ((cycleAlerts cfg env).countP isApiRespAlert =
        if cfg.apiRespThreshold < ht then 1 else 0) ∧
    ((cycleAlerts cfg env).countP isGenAlert =
        if cfg.genTimeThreshold < g then 1 else 0) ∧
    ((cycleAlerts cfg env).countP (isGpuMemFor j) =
        if cfg.gpuMemThreshold < gpuMemPct rj then 1 else 0) ∧
    ((cycleAlerts cfg env).countP (isGpuTempFor j) =
        if cfg.gpuTempThreshold < rj.temp then 1 else 0) ∧
    ((cycleAlerts cfg env).countP isCpuAlert =
        if cfg.cpuThreshold < sr.cpuPercent then 1 else 0) ∧
    ((cycleAlerts cfg env).countP isMemAlert =
        if cfg.memThreshold < sr.mem.percent then 1 else 0) ∧
    ((cycleAlerts cfg env).countP isDiskAlert =
        if cfg.diskThreshold < sr.diskPercent then 1 else 0) := by
  have hne : oks ≠ [] := by
    intro h
    subst h
    simp at hj
  have hempty : (oks.map GpuReadOutcome.ok).isEmpty = false := by
    cases oks with
    | nil => exact absurd rfl hne
    | cons a l => rfl
  have hgpu : checkGpuStatus cfg true (oks.map .ok) =
      (.report (oks.map GpuReadOutcome.ok).length (reportsOfOks 0 oks),
        alertsOfOks cfg 0 oks) := by
    simp [checkGpuStatus, hempty, gpuLoop_all_ok cfg oks 0]
  have hsys : checkSystemResources cfg env.sys =
      (.report sr, sysAlerts cfg sr.cpuPercent sr.mem.percent sr.diskPercent) := by
    unfold checkSystemResources
    rw [hS]
  have hcy : cycleAlerts cfg env =
      apiAlerts cfg ht (some g) ++ alertsOfOks cfg 0 oks ++
        sysAlerts cfg sr.cpuPercent sr.mem.percent sr.diskPercent := by
    unfold cycleAlerts
    rw [hH, hM, hN, hR, hgpu, hsys]
    have h1 : (checkApiHealth cfg (.ok hs ht) (.ok ms mt) env.genReq).2 =
        apiAlerts cfg ht (testGeneration env.genReq) := rfl
    rw [h1, hG]
  have hmemj := countP_alertsOfOks_gpuMem cfg oks 0 j rj hj
  have htempj := countP_alertsOfOks_gpuTemp cfg oks 0 j rj hj
  rw [Nat.zero_add] at hmemj htempj
  refine ⟨?_, ?_, ?_, ?_, ?_, ?_, ?_⟩ <;>
    rw [hcy, List.countP_append, List.countP_append]
  · rw [countP_apiAlerts_resp,
      countP_alertsOfOks_zero cfg isApiRespAlert (fun i t => rfl)
        (fun i t => rfl) oks 0,
      countP_sysAlerts_zero cfg _ _ _ isApiRespAlert (fun t => rfl)
        (fun t => rfl) (fun t => rfl)]
    omega
  · rw [countP_apiAlerts_gen cfg ht g hg0,
      countP_alertsOfOks_zero cfg isGenAlert (fun i t => rfl)
        (fun i t => rfl) oks 0,
      countP_sysAlerts_zero cfg _ _ _ isGenAlert (fun t => rfl)
        (fun t => rfl) (fun t => rfl)]
    omega
  · rw [countP_apiAlerts_zero cfg ht (some g) (isGpuMemFor j)
        (fun t => rfl) (fun t => rfl), hmemj,
      countP_sysAlerts_zero cfg _ _ _ (isGpuMemFor j) (fun t => rfl)
        (fun t => rfl) (fun t => rfl)]
    omega
  · rw [countP_apiAlerts_zero cfg ht (some g) (isGpuTempFor j)
        (fun t => rfl) (fun t => rfl), htempj,
      countP_sysAlerts_zero cfg _ _ _ (isGpuTempFor j) (fun t => rfl)
        (fun t => rfl) (fun t => rfl)]
    omega
  · rw [countP_apiAlerts_zero cfg ht (some g) isCpuAlert
        (fun t => rfl) (fun t => rfl),
      countP_alertsOfOks_zero cfg isCpuAlert (fun i t => rfl)
        (fun i t => rfl) oks 0,
      countP_sysAlerts_cpu]
    omega
  · rw [countP_apiAlerts_zero cfg ht (some g) isMemAlert
        (fun t => rfl) (fun t => rfl),
      countP_alertsOfOks_zero cfg isMemAlert (fun i t => rfl)
        (fun i t => rfl) oks 0,
      countP_sysAlerts_mem]
    omega
  · rw [countP_apiAlerts_zero cfg ht (some g) isDiskAlert
        (fun t => rfl) (fun t => rfl),
      countP_alertsOfOks_zero cfg isDiskAlert (fun i t => rfl)
        (fun i t => rfl) oks 0,
      countP_sysAlerts_disk]
    omega

/-- A GPU reading breaching both default thresholds: memory 99%,
temperature 90°C. -/
def gpuHot : GpuReading := ⟨"NVIDIA H100", 990, 1000, 90, 50, 50, none⟩

/-- A fully successful resource-probe environment: CPU 95%, memory 50%,
disk 50%. -/
def sysEnvW : SysEnv :=
  ⟨.ok 95, .ok 8, .ok ⟨1000, 500, 500, 50⟩, .ok ⟨1000, 500, 500⟩,
    .ok ⟨1, 2, 3, 4⟩, .ok 100, .ok (1, 1, 1)⟩

/-- The report `sysEnvW` acquires. -/
def srW : SysReport :=
  { cpuPercent := 95
    cpuCount := 8
    loadAvg := some (1, 1, 1)
    mem := ⟨1000, 500, 500, 50⟩
    disk := ⟨1000, 500, 500⟩
    diskPercent := 500 / 1000 * 100
    net := ⟨1, 2, 3, 4⟩
    processCount := 100 }

/-- A fully successful cycle with breaches on the API-latency, GPU-memory,
GPU-temperature and CPU metrics and none on the others. -/
def envW : CycleEnv :=
  { healthReq := .ok 200 6
    modelsReq := .ok 200 1
    genReq := .ok 200 2
    nvidia := true
    gpuReads := [.ok gpuHot]
    sys := sysEnvW
    procs := .scan []
    mkdirErr := none
    writeErr := none }

/-- C1 witness: under the default thresholds, the cycle of `envW` yields
exactly one candidate each for API latency (6s > 5s), GPU 0 memory
(99% > 95%), GPU 0 temperature (90° > 85°) and CPU (95% > 90%), and none
for generation latency (2s ≤ 30s), memory (50% ≤ 90%) or disk
(50% ≤ 85%). -/
theorem c1_exceeds_threshold_semantics_witness :
    ((cycleAlerts cfgDefault envW).countP isApiRespAlert = 1) ∧
    ((cycleAlerts cfgDefault envW).countP isGenAlert = 0) ∧
    ((cycleAlerts cfgDefault envW).countP (isGpuMemFor 0) = 1) ∧
    ((cycleAlerts cfgDefault envW).countP (isGpuTempFor 0) = 1) ∧
    ((cycleAlerts cfgDefault envW).countP isCpuAlert = 1) ∧
    ((cycleAlerts cfgDefault envW).countP isMemAlert = 0) ∧
    ((cycleAlerts cfgDefault envW).countP isDiskAlert = 0) := by
  obtain ⟨h1, h2, h3, h4, h5, h6, h7⟩ :=
    c1_exceeds_threshold_semantics cfgDefault envW 200 6 200 1 2 [gpuHot] 0
      gpuHot srW rfl rfl rfl (by norm_num [cfgDefault]) rfl rfl rfl rfl
  refine ⟨?_, ?_, ?_, ?_, ?_, ?_, ?_⟩
  · rw [h1]
    norm_num [cfgDefault]
  · rw [h2]
    norm_num [cfgDefault]
  · rw [h3]
    norm_num [cfgDefault, gpuMemPct, gpuHot]
  · rw [h4]
    norm_num [cfgDefault, gpuHot]
  · rw [h5]
    norm_num [cfgDefault, srW]
  · rw [h6]
    norm_num [cfgDefault, srW]
  · rw [h7]
    norm_num [cfgDefault, srW]

/-! ## Claim C10: `load_config`

The configuration loader reads a flat key=value file and coerces each
value: quotes stripped, `true`/`false` (case-insensitively) to booleans,
all-digit values through `int(...)`, values whose text minus dots is all
digits through `float(...)` — the one conversion that can raise
`ValueError` — and everything else kept as a string.  ASCII text is
modelled (Python's `str.isdigit`/`str.lower` accept further Unicode
classes irrelevant to this file format). -/

/-- One dynamically-typed Python config value. -/
inductive PyVal where
  | bool (b : Bool)
  | int (n : ℕ)
  | float (q : ℚ)
  | str (s : String)
deriving DecidableEq

/-- An ASCII digit. -/
def isAsciiDigit (c : Char) : Bool := decide ('0' ≤ c) && decide (c ≤ '9')

/-- Python `s.isdigit()` on ASCII text: nonempty and all digits. -/
def isDigits (s : String) : Bool := !s.data.isEmpty && s.data.all isAsciiDigit

/-- Python `s.replace('.', '')`. -/
def removeDots (s : String) : String :=
  ⟨s.data.filter (fun c => decide (c ≠ '.'))⟩

/-- The number of dots in the value text. -/
def countDots (s : String) : ℕ := s.data.countP (fun c => decide (c = '.'))

/-- The numeral denoted by a digit run. -/
def digitsVal (l : List Char) : ℕ :=
  l.foldl (fun acc c => 10 * acc + (c.toNat - '0'.toNat)) 0

/-- Python `int(s)` on a digit string. -/
def strToNat (s : String) : ℕ := digitsVal s.data

/-- Split at the first dot. -/
def splitAtDot : List Char → List Char × List Char
  | [] => ([], [])
  | c :: rest =>
    if c = '.' then ([], rest)
    else
      let p := splitAtDot rest
      (c :: p.1, p.2)

/-- Python `float(s)` on a digits-and-at-most-one-dot string: integer part
plus fractional part. -/
def parseFloat (s : String) : ℚ :=
  let p := splitAtDot s.data
  (digitsVal p.1 : ℚ) + (digitsVal p.2 : ℚ) / (10 ^ p.2.length : ℚ)

/-- The coercion of one config value (lines 69–77 of the source):
`true`/`false` (case-insensitive) to bool, all-digits to int, digits-minus-
dots to float — where `float(...)` raises `ValueError` when the text has
more than one dot — and anything else kept as the string. -/
def parseValue (v : String) : Except Unit PyVal :=
  if pyLower v = "true" ∨ pyLower v = "false" then
    .ok (.bool (decide (pyLower v = "true")))
  else if isDigits v then .ok (.int (strToNat v))
  else if '.' ∈ v.data ∧ isDigits (removeDots v) then
    if countDots v ≤ 1 then .ok (.float (parseFloat v)) else .error ()
  else .ok (.str v)

/-- Python `s.strip()`: surrounding whitespace removed. -/
def pyStrip (s : String) : String :=
  ⟨((s.data.dropWhile Char.isWhitespace).reverse.dropWhile
      Char.isWhitespace).reverse⟩

/-- Python `s.strip('"')`: surrounding double-quote characters removed. -/
def stripQuotes (s : String) : String :=
  ⟨((s.data.dropWhile (fun c => decide (c = '"'))).reverse.dropWhile
      (fun c => decide (c = '"'))).reverse⟩

/-- Python `line.split('=', 1)`: the text before and after the first
equals sign. -/
def splitFirstEq : List Char → List Char × List Char
  | [] => ([], [])
  | c :: rest =>
    if c = '=' then ([], rest)
    else
      let p := splitFirstEq rest
      (c :: p.1, p.2)

/-- The line filter and key/value extraction of `load_config` (lines
62–67): strip the line; skip it when empty, a comment, or without `=`;
otherwise split at the first `=`, strip the key, and strip whitespace then
quotes from the value. -/
def processLine (raw : String) : Option (String × String) :=
  let line := pyStrip raw
  if line ≠ "" ∧ ¬ line.data.head? = some '#' ∧ '=' ∈ line.data then
    let p := splitFirstEq line.data
    some (pyStrip ⟨p.1⟩, stripQuotes (pyStrip ⟨p.2⟩))
  else none

/-- The built-in defaults of `load_config` (lines 40–58). -/
def defaultConfig : List (String × PyVal) :=
  [("MONITORING_ROOT", .str "/opt/vllm-monitoring"),
   ("API_ENDPOINT", .str "http://localhost:8000"),
   ("API_KEY", .str ""),
   ("HEALTH_CHECK_INTERVAL", .int 30),
   ("PERFORMANCE_CHECK_INTERVAL", .int 60),
   ("GPU_CHECK_INTERVAL", .int 30),
   ("SYSTEM_CHECK_INTERVAL", .int 60),
   ("GPU_MEMORY_THRESHOLD", .int 95),
   ("GPU_TEMP_THRESHOLD", .int 85),
   ("CPU_THRESHOLD", .int 90),
   ("MEMORY_THRESHOLD", .int 90),
   ("DISK_THRESHOLD", .int 85),
   ("API_RESPONSE_THRESHOLD", .float 5),
   ("GENERATION_TIME_THRESHOLD", .float 30),
   ("LOG_LEVEL", .str "INFO"),
   ("ENABLE_SLACK_ALERTS", .bool false),
   ("ENABLE_EMAIL_ALERTS", .bool false)]

/-- Process the file lines in order over a config dict, modelled as an
association list with last-write-wins lookup: setting a key prepends the
pair, observationally a Python dict assignment.  The first value whose
`float(...)` conversion fails propagates the `ValueError`. -/
def loadConfigLines :
    List (String × PyVal) → List String → Except Unit (List (String × PyVal))
  | cfg, [] => .ok cfg
  | cfg, l :: ls =>
    match processLine l with
    | none => loadConfigLines cfg ls
    | some kv =>
      match parseValue kv.2 with
      | .error e => .error e
      | .ok pv => loadConfigLines ((kv.1, pv) :: cfg) ls

/-- `load_config`: the defaults when the config file does not exist,
otherwise the defaults updated by the file's lines. -/
def loadConfig (file : Option (List String)) :
    Except Unit (List (String × PyVal)) :=
  match file with
  | none => .ok defaultConfig
  | some lines => loadConfigLines defaultConfig lines

/-- Dict lookup in the association-list model. -/
def lookupCfg (cfg : List (String × PyVal)) (k : String) : Option PyVal :=
  (cfg.find? (fun p => decide (p.1 = k))).map (fun p => p.2)

/-- The raising condition in the words of claim C10: the value (after
quote stripping), not equal to true/false case-insensitively and not all
digits, consists only of digits and dots with more than one dot. -/
def claimRaiseCondition (v : String) : Bool :=
  !(decide (pyLower v = "true") || decide (pyLower v = "false")) &&
  !(isDigits v) &&
  v.data.all (fun c => isAsciiDigit c || decide (c = '.')) &&
  decide (1 < countDots v)

theorem dot_mem_of_countDots_pos (v : String) (h : 0 < countDots v) :
    '.' ∈ v.data := by
  unfold countDots at h
  obtain ⟨c, hc, hdec⟩ := List.countP_pos_iff.mp h
  have hc' : c = '.' := of_decide_eq_true hdec
  rwa [hc'] at hc

theorem pyLower_dot_mem (v : String) (h : '.' ∈ v.data) :
    '.' ∈ (pyLower v).data := by
  have hl : lowerChar '.' = '.' := by decide
  have := List.mem_map_of_mem lowerChar h
  rw [hl] at this
  exact this

theorem pyLower_ne_true_of_dot (v : String) (h : '.' ∈ v.data) :
    pyLower v ≠ "true" ∧ pyLower v ≠ "false" := by
  constructor <;> intro heq <;>
    [exact absurd (heq ▸ pyLower_dot_mem v h) (by decide);
     exact absurd (heq ▸ pyLower_dot_mem v h) (by decide)]

theorem countDots_eq_zero_of_isDigits (v : String) (h : isDigits v = true) :
    countDots v = 0 := by
  unfold isDigits at h
  unfold countDots
  rw [List.countP_eq_zero]
  intro c hc hdot
  rw [Bool.and_eq_true] at h
  have hall := h.2
  rw [List.all_eq_true] at hall
  have hd := hall c hc
  have hc' : c = '.' := of_decide_eq_true hdot
  subst hc'
  exact absurd hd (by decide)

theorem lowerChar_digit (c : Char) (h : isAsciiDigit c = true) :
    lowerChar c = c := by
  unfold lowerChar
  rw [if_neg]
  rintro ⟨h1, _⟩
  unfold isAsciiDigit at h
  rw [Bool.and_eq_true] at h
  have h2 : c ≤ '9' := of_decide_eq_true h.2
  have h3 : 'A' ≤ '9' := le_trans h1 h2
  exact absurd h3 (by decide)

theorem pyLower_ne_of_isDigits (v : String) (h : isDigits v = true) :
    pyLower v ≠ "true" ∧ pyLower v ≠ "false" := by
  unfold isDigits at h
  rw [Bool.and_eq_true] at h
  have hall := h.2
  rw [List.all_eq_true] at hall
  constructor <;> intro heq
  · have hd : v.data.map lowerChar = "true".data := congrArg String.data heq
    have hm : 't' ∈ v.data.map lowerChar := by rw [hd]; decide
    obtain ⟨c, hc, hlc⟩ := List.mem_map.mp hm
    rw [lowerChar_digit c (hall c hc)] at hlc
    subst hlc
    exact absurd (hall _ hc) (by decide)
  · have hd : v.data.map lowerChar = "false".data := congrArg String.data heq
    have hm : 'f' ∈ v.data.map lowerChar := by rw [hd]; decide
    obtain ⟨c, hc, hlc⟩ := List.mem_map.mp hm
    rw [lowerChar_digit c (hall c hc)] at hlc
    subst hlc
    exact absurd (hall _ hc) (by decide)

theorem parseValue_error_iff (v : String) :
    parseValue v = .error () ↔
      (isDigits (removeDots v) = true ∧ 1 < countDots v) := by
  unfold parseValue
  split_ifs with h1 h2 h3 h4
  · constructor
    · intro h
      exact absurd h (by simp)
    · rintro ⟨hd, hc⟩
      have hdot := dot_mem_of_countDots_pos v (by omega)
      have hne := pyLower_ne_true_of_dot v hdot
      rcases h1 with h1 | h1
      · exact absurd h1 hne.1
      · exact absurd h1 hne.2
  · constructor
    · intro h
      exact absurd h (by simp)
    · rintro ⟨hd, hc⟩
      have h0 := countDots_eq_zero_of_isDigits v h2
      omega
  · constructor
    · intro h
      exact absurd h (by simp)
    · rintro ⟨hd, hc⟩
      omega
  · exact ⟨fun _ => ⟨h3.2, by omega⟩, fun _ => rfl⟩
  · constructor
    · intro h
      exact absurd h (by simp)
    · rintro ⟨hd, hc⟩
      have hdot := dot_mem_of_countDots_pos v (by omega)
      exact absurd ⟨hdot, hd⟩ h3

theorem loadConfigLines_error_iff :
    ∀ (lines : List String) (cfg : List (String × PyVal)),
      loadConfigLines cfg lines = .error () ↔
        ∃ l ∈ lines, ∃ kv, processLine l = some kv ∧
          isDigits (removeDots kv.2) = true ∧ 1 < countDots kv.2 := by
  intro lines
  induction lines with
  | nil =>
    intro cfg
    simp [loadConfigLines]
  | cons l ls ih =>
    intro cfg
    cases hp : processLine l with
    | none =>
      simp only [loadConfigLines, hp]
      rw [ih cfg]
      constructor
      · rintro ⟨a, ha, kv, hkv, hcond⟩
        exact ⟨a, List.mem_cons_of_mem l ha, kv, hkv, hcond⟩
      · rintro ⟨a, ha, kv, hkv, hcond⟩
        rcases List.mem_cons.mp ha with rfl | ha
        · rw [hp] at hkv
          exact absurd hkv (by simp)
        · exact ⟨a, ha, kv, hkv, hcond⟩
    | some kv =>
      cases hv : parseValue kv.2 with
      | error e =>
        cases e
        simp only [loadConfigLines, hp, hv]
        constructor
        · intro _
          exact ⟨l, List.mem_cons_self l ls, kv, hp,
            (parseValue_error_iff kv.2).mp hv⟩
        · intro _
          trivial
      | ok pv =>
        simp only [loadConfigLines, hp, hv]
        rw [ih ((kv.1, pv) :: cfg)]
        constructor
        · rintro ⟨a, ha, kv2, hkv2, hcond⟩
          exact ⟨a, List.mem_cons_of_mem l ha, kv2, hkv2, hcond⟩
        · rintro ⟨a, ha, kv2, hkv2, hcond⟩
          rcases List.mem_cons.mp ha with rfl | ha
          · rw [hp] at hkv2
            have hkk : kv = kv2 := Option.some_injective _ hkv2
            subst hkk
            have herr : parseValue kv.2 = .error () :=
              (parseValue_error_iff kv.2).mpr hcond
            rw [hv] at herr
            exact absurd herr (by simp)
          · exact ⟨a, ha, kv2, hkv2, hcond⟩

theorem loadConfigLines_unset_key :
    ∀ (lines : List String) (cfg cfg2 : List (String × PyVal)),
      loadConfigLines cfg lines = .ok cfg2 →
      ∀ k, (∀ l ∈ lines, ∀ kv, processLine l = some kv → kv.1 ≠ k) →
        lookupCfg cfg2 k = lookupCfg cfg k := by
  intro lines
  induction lines with
  | nil =>
    intro cfg cfg2 h k _
    simp only [loadConfigLines, Except.ok.injEq] at h
    rw [h]
  | cons l ls ih =>
    intro cfg cfg2 h k hk
    cases hp : processLine l with
    | none =>
      simp only [loadConfigLines, hp] at h
      exact ih cfg cfg2 h k
        (fun a ha kv hkv => hk a (List.mem_cons_of_mem l ha) kv hkv)
    | some kv =>
      cases hv : parseValue kv.2 with
      | error e =>
        simp only [loadConfigLines, hp, hv] at h
        exact Except.noConfusion h
      | ok pv =>
        simp only [loadConfigLines, hp, hv] at h
        have h2 := ih ((kv.1, pv) :: cfg) cfg2 h k
          (fun a ha kv2 hkv2 => hk a (List.mem_cons_of_mem l ha) kv2 hkv2)
        rw [h2]
        have hne : kv.1 ≠ k := hk l (List.mem_cons_self l ls) kv hp
        simp [lookupCfg, List.find?, hne]

/-- Every numeric value `load_config`'s coercion can produce is
nonnegative: integers come from digit strings and floats from
digits-and-dot strings.  (With the all-numeric built-in defaults, this is
why every reachable threshold is nonnegative, as claim C1's generation
hypothesis assumes.) -/
theorem parseValue_numeric_nonneg (v : String) :
    (∀ n, parseValue v = .ok (.int n) → 0 ≤ (n : ℚ)) ∧
    (∀ q, parseValue v = .ok (.float q) → 0 ≤ q) := by
  constructor
  · intro n _
    positivity
  · intro q h
    unfold parseValue at h
    split_ifs at h <;> simp_all
    have hq : parseFloat v = q := h
    subst hq
    unfold parseFloat
    positivity

/-- C10 counterexample: the value ".." (config line `K=..`) satisfies the
claim's raising condition — after quote stripping it is not true/false,
not all digits, and consists only of digits and dots with more than one
dot — yet `load_config` returns normally and stores it as the string
"..": `"..".replace('.','').isdigit()` is false because the residue is
empty, so the only `ValueError`-raising branch is not reached. -/
theorem c10_dots_only_counterexample :
    claimRaiseCondition ".." = true ∧
    loadConfig (some ["K=.."]) = .ok (("K", .str "..") :: defaultConfig) := by
  constructor
  · decide
  · rfl

/-- C10 amended: `load_config` raises an unhandled `ValueError` exactly
when some processed config value, after stripping quotes, consists only of
digits and dots with **at least one digit** and more than one dot; for
every other config-file text it returns a configuration: values equal to
true/false case-insensitively become booleans, all-digit values become
integers, digit-and-one-dot values become floats, every other value stays
a string, a missing file yields the built-in defaults, and every key no
processed line sets keeps its built-in default. -/
theorem c10_load_config_amended :
    (∀ lines : List String,
        loadConfig (some lines) = .error () ↔
          ∃ l ∈ lines, ∃ kv, processLine l = some kv ∧
            isDigits (removeDots kv.2) = true ∧ 1 < countDots kv.2) ∧
    loadConfig none = .ok defaultConfig ∧
    (∀ v, pyLower v = "true" → parseValue v = .ok (.bool true)) ∧
    (∀ v, pyLower v = "false" → parseValue v = .ok (.bool false)) ∧
    (∀ v, isDigits v = true → parseValue v = .ok (.int (strToNat v))) ∧
    (∀ v, isDigits (removeDots v) = true → countDots v = 1 →
        parseValue v = .ok (.float (parseFloat v))) ∧
    (∀ v, pyLower v ≠ "true" → pyLower v ≠ "false" → isDigits v = false →
        ¬('.' ∈ v.data ∧ isDigits (removeDots v) = true) →
        parseValue v = .ok (.str v)) ∧
    (∀ (lines : List String) (cfg : List (String × PyVal)),
        loadConfig (some lines) = .ok cfg →
        ∀ k, (∀ l ∈ lines, ∀ kv, processLine l = some kv → kv.1 ≠ k) →
          lookupCfg cfg k = lookupCfg defaultConfig k) := by
  refine ⟨?_, rfl, ?_, ?_, ?_, ?_, ?_, ?_⟩
  · intro lines
    exact loadConfigLines_error_iff lines defaultConfig
  · intro v h
    unfold parseValue
    rw [if_pos (Or.inl h)]
    simp [h]
  · intro v h
    have hne : pyLower v ≠ "true" := by
      rw [h]
      decide
    unfold parseValue
    rw [if_pos (Or.inr h)]
    simp [hne]
  · intro v h
    have hne := pyLower_ne_of_isDigits v h
    unfold parseValue
    rw [if_neg (by rintro (h1 | h1) <;> [exact hne.1 h1; exact hne.2 h1]),
      if_pos h]
  · intro v hd hc
    have hdot := dot_mem_of_countDots_pos v (by omega)
    have hne := pyLower_ne_true_of_dot v hdot
    have hnd : isDigits v = false := by
      cases hdig : isDigits v
      · rfl
      · have h0 := countDots_eq_zero_of_isDigits v hdig
        omega
    unfold parseValue
    rw [if_neg (by rintro (h1 | h1) <;> [exact hne.1 h1; exact hne.2 h1]),
      if_neg (by simp [hnd]), if_pos ⟨hdot, hd⟩, if_pos (by omega)]
  · intro v h1 h2 h3 h4
    unfold parseValue
    rw [if_neg (by rintro (h | h) <;> [exact h1 h; exact h2 h]),
      if_neg (by simp [h3]), if_neg h4]
  · intro lines cfg h k hk
    exact loadConfigLines_unset_key lines defaultConfig cfg h k hk

/-- C10 amended witness: the config line `CPU_THRESHOLD=1.2.3` — one
digit-and-dots value with two dots — makes `load_config` raise. -/
theorem c10_load_config_amended_witness :
    loadConfig (some ["CPU_THRESHOLD=1.2.3"]) = .error () := by
  refine (c10_load_config_amended.1 ["CPU_THRESHOLD=1.2.3"]).mpr ?_
  refine ⟨"CPU_THRESHOLD=1.2.3", by simp, ("CPU_THRESHOLD", "1.2.3"), ?_, ?_, ?_⟩
  · decide
  · decide
  · decide

end HealthMonitor
